import Mathlib

/-!
Verification development for the `glapp` repository.

The repository wires a windowing/input library, OpenGL, and the imgui
immediate-mode UI library together.  Two backend implementations of the
`imui` package exist side by side (one against GLFW, one against SDL);
both are embedded here.  OpenGL is modelled as an explicit state record
(`GLState`) acted on by an inductive type of issued calls (`GLCall`);
state queries (`gl.GetIntegerv`, `gl.IsEnabled`) are modelled as pure
reads of that record.  Machine floating point values (clip rectangles,
times) are modelled as exact rationals `ℚ`; Go's float-to-int32
conversion (truncation toward zero) is `f2i`.
-/

namespace Glapp

/-! ## Mouse button indices

The constants `mouseButtonPrimary`, `mouseButtonSecondary`,
`mouseButtonTertiary` and `mouseButtonCount` are referenced by
`src/imui/imui.go` but declared in a file of the `imui` package that is
not part of the sources at hand.  Their values are forced by usage: the
GLFW backend stores the latches in a `[3]bool`, the SDL backend iterates
`[]uint32{BUTTON_LEFT, BUTTON_RIGHT, BUTTON_MIDDLE}` with index `i`
running 0,1,2, and `glfwButtonIDByIndex` maps the three indices to
`glfw.MouseButton1..3`. -/

def mouseButtonPrimary : Fin 3 := 0
def mouseButtonSecondary : Fin 3 := 1
def mouseButtonTertiary : Fin 3 := 2

/-! ## GLFW backend: input bridge (src/imui/imui.go, first variant) -/

/-- GLFW mouse-button action codes (`glfw.Release` = 0, `glfw.Press` = 1,
`glfw.Repeat` = 2). -/
inductive GlfwAction where
  | release
  | press
  | rept
deriving DecidableEq, Repr

/-- `glfwButtonIndexByID`: the map from raw GLFW button codes
(`glfw.MouseButton1` = 0, `glfw.MouseButton2` = 1, `glfw.MouseButton3` = 2)
to the three tracked indices; other raw buttons are not known to the map. -/
def glfwButtonIndexByID (rawButton : ℕ) : Option (Fin 3) :=
  if rawButton = 0 then some mouseButtonPrimary
  else if rawButton = 1 then some mouseButtonSecondary
  else if rawButton = 2 then some mouseButtonTertiary
  else none

/-- `glfwButtonIDByIndex`: inverse direction, used by `NewFrame` to query
the host button state. -/
def glfwButtonIDByIndex (i : Fin 3) : ℕ := (i : ℕ)

/-- `mouseButtonChange` (GLFW backend): the mouse button callback.  Only a
press of a known button sets the corresponding latch; nothing ever clears
a latch here. -/
def mouseButtonChange (latch : Fin 3 → Bool) (rawButton : ℕ)
    (action : GlfwAction) : Fin 3 → Bool :=
  match glfwButtonIndexByID rawButton with
  | some buttonIndex =>
      if action = GlfwAction.press then
        Function.update latch buttonIndex true
      else latch
  | none => latch

/-- Folding the callback over a list of raw (button, action) events that
arrive between two frames. -/
def processGlfwButtonEvents (latch : Fin 3 → Bool)
    (events : List (ℕ × GlfwAction)) : Fin 3 → Bool :=
  events.foldl (fun l e => mouseButtonChange l e.1 e.2) latch

/-- The mouse-button section of GLFW `NewFrame`: for each of the three
indices, report `latch[i] || hostDown[i]` to `SetMouseButtonDown`, then
clear the latch.  Returns the list of `SetMouseButtonDown(i, down)` calls
made, in order, together with the latch state after the loop.
`hostDown i` models `window.GetMouseButton(glfwButtonIDByIndex[i]) == glfw.Press`. -/
def glfwNewFrameMouseButtons (latch : Fin 3 → Bool) (hostDown : Fin 3 → Bool) :
    List (Fin 3 × Bool) × (Fin 3 → Bool) :=
  ((List.finRange 3).map fun i => (i, latch i || hostDown i), fun _ => false)

/-- Time-step section of GLFW `NewFrame` (lines 65–70): when the stored
time is positive the measured difference is reported via `SetDeltaTime`;
otherwise no call to `SetDeltaTime` is made at all (`none`).  Returns the
reported value (if any) and the new stored time. -/
def glfwNewFrameDelta (storedTime currentTime : ℚ) : Option ℚ × ℚ :=
  (if storedTime > 0 then some (currentTime - storedTime) else none, currentTime)

/-- The sentinel cursor position the GLFW backend substitutes when the
window is unfocused: `(-math.MaxFloat32, -math.MaxFloat32)`.
`math.MaxFloat32` is `(2 - 2⁻²³) · 2¹²⁷ = 2¹²⁸ - 2¹⁰⁴` exactly. -/
def sentinelPos : ℚ × ℚ := (-(2 ^ 128 - 2 ^ 104), -(2 ^ 128 - 2 ^ 104))

/-- Cursor section of GLFW `NewFrame` (lines 72–78): report the queried
cursor position when the window has input focus, else the sentinel. -/
def glfwNewFrameMousePos (focused : Bool) (cursor : ℚ × ℚ) : ℚ × ℚ :=
  if focused then cursor else sentinelPos

/-- `mouseScrollChange` (GLFW backend, lines 141–143): the raw scroll
offsets are forwarded unchanged to `AddMouseWheelDelta`. -/
def glfwScrollDelta (x y : ℚ) : ℚ × ℚ := (x, y)

/-! ## SDL backend: input bridge (src/imui/imui.go, second variant) -/

/-- SDL mouse button codes: `BUTTON_LEFT` = 1, `BUTTON_MIDDLE` = 2,
`BUTTON_RIGHT` = 3. -/
def sdlButtonLeft : ℕ := 1
def sdlButtonMiddle : ℕ := 2
def sdlButtonRight : ℕ := 3

/-- `sdl.Button(b) = 1 << (b - 1)`, the bitmask of button `b` inside the
state word returned by `sdl.GetMouseState`. -/
def sdlButtonMask (b : ℕ) : ℕ := 2 ^ (b - 1)

/-- The events relevant to the SDL `ProcessEvent` switch.  Wheel deltas
are `int32` fields of `sdl.MouseWheelEvent`. -/
inductive SdlEvent where
  | mouseWheel (x y : ℤ)
  | mouseButtonDown (button : ℕ)
  | textInput
  | keyDown (scancode : ℤ)
  | keyUp (scancode : ℤ)
deriving DecidableEq, Repr

/-- The `sdl.MOUSEBUTTONDOWN` arm of `ProcessEvent` (lines 582–591): a
press of left/right/middle sets `buttonsDown` at index primary/secondary/
tertiary; every other event leaves the latches alone. -/
def sdlProcessEventButtons (latch : Fin 3 → Bool) (e : SdlEvent) :
    Fin 3 → Bool :=
  match e with
  | SdlEvent.mouseButtonDown button =>
      if button = sdlButtonLeft then Function.update latch mouseButtonPrimary true
      else if button = sdlButtonRight then Function.update latch mouseButtonSecondary true
      else if button = sdlButtonMiddle then Function.update latch mouseButtonTertiary true
      else latch
  | _ => latch

/-- Folding `ProcessEvent` over the events between two frames. -/
def processSdlEvents (latch : Fin 3 → Bool) (events : List SdlEvent) :
    Fin 3 → Bool :=
  events.foldl sdlProcessEventButtons latch

/-- The button order of the SDL `NewFrame` loop:
`[]uint32{sdl.BUTTON_LEFT, sdl.BUTTON_RIGHT, sdl.BUTTON_MIDDLE}`. -/
def sdlFrameButtonOrder (i : Fin 3) : ℕ :=
  match i with
  | 0 => sdlButtonLeft
  | 1 => sdlButtonRight
  | 2 => sdlButtonMiddle

/-- The mouse-button section of SDL `NewFrame` (lines 524–530): for each
index `i`, report `buttonsDown[i] || (state & sdl.Button(button)) != 0`,
then clear the latch.  `state` is the bitmask from `sdl.GetMouseState`. -/
def sdlNewFrameMouseButtons (latch : Fin 3 → Bool) (state : ℕ) :
    List (Fin 3 × Bool) × (Fin 3 → Bool) :=
  ((List.finRange 3).map fun i =>
      (i, latch i || decide (state.land (sdlButtonMask (sdlFrameButtonOrder i)) ≠ 0)),
    fun _ => false)

/-- Time-step section of SDL `NewFrame` (lines 513–522): with a positive
stored performance counter the measured difference over the counter
frequency is reported; on the first call the fixed fallback 1/60 is
reported.  The `uint64` subtraction wraps modulo `2⁶⁴`. -/
def sdlNewFrameDelta (storedTime currentTime frequency : ℕ) : ℚ × ℕ :=
  (if storedTime > 0 then
      (((currentTime + 2 ^ 64 - storedTime) % 2 ^ 64 : ℕ) : ℚ) / (frequency : ℚ)
    else 1 / 60, currentTime)

/-- Cursor section of SDL `NewFrame` (lines 524–526): the position queried
by `sdl.GetMouseState` is always reported; there is no focus check and no
sentinel substitution in this backend. -/
def sdlNewFrameMousePos (queried : ℚ × ℚ) : ℚ × ℚ := queried

/-- The `sdl.MOUSEWHEEL` arm of `ProcessEvent` (lines 567–581): each axis
contributes +1, −1 or 0 according to the sign of the raw `int32` value. -/
def sdlWheelDelta (x y : ℤ) : ℚ × ℚ :=
  (if x > 0 then 1 else if x < 0 then -1 else 0,
   if y > 0 then 1 else if y < 0 then -1 else 0)

/-! ## OpenGL state model

The pipeline state captured and restored by `Render` plus the pieces of
object state `Render` touches.  Texture bindings are per texture unit
(keyed by the unit enum, `gl.TEXTURE0` = 0x84C0); sampler bindings are
keyed by unit index as in `gl.BindSampler`.  Buffer contents live outside
`Pipeline` (they are object state of the UI's own buffers, not pipeline
state), as does the name counter used by `gl.GenVertexArrays`. -/

def glTEXTURE0 : ℕ := 0x84C0
def glTEXTURE_2D : ℕ := 0x0DE1
def glARRAY_BUFFER : ℕ := 0x8892
def glELEMENT_ARRAY_BUFFER : ℕ := 0x8893
def glBLEND : ℕ := 0x0BE2
def glCULL_FACE : ℕ := 0x0B44
def glDEPTH_TEST : ℕ := 0x0B71
def glSCISSOR_TEST : ℕ := 0x0C11
def glFUNC_ADD : ℕ := 0x8006
def glSRC_ALPHA : ℕ := 0x0302
def glONE_MINUS_SRC_ALPHA : ℕ := 0x0303
def glFRONT_AND_BACK : ℕ := 0x0408
def glFILL : ℕ := 0x1B02
def glTRIANGLES : ℕ := 0x0004
def glUNSIGNED_SHORT : ℕ := 0x1403
def glUNSIGNED_INT : ℕ := 0x1405
def glUNSIGNED_BYTE : ℕ := 0x1401
def glFLOAT : ℕ := 0x1406
def glSTREAM_DRAW : ℕ := 0x88E0

/-- Go's float-to-int32 conversion truncates toward zero (overflow is
outside the modelled range). -/
def f2i (q : ℚ) : ℤ := if 0 ≤ q then ⌊q⌋ else ⌈q⌉

/-- The externally observable pipeline state backed up and restored by
`Render`, one field per snapshot entry (core profile, so a single polygon
mode applies to front and back faces). -/
@[ext]
structure Pipeline where
  activeTexture : ℕ
  program : ℕ
  texture2D : ℕ → ℕ
  sampler : ℕ → ℕ
  arrayBuffer : ℕ
  elementArrayBuffer : ℕ
  vertexArray : ℕ
  polygonMode : ℕ
  viewport : ℤ × ℤ × ℤ × ℤ
  scissorBox : ℤ × ℤ × ℤ × ℤ
  blendSrcRgb : ℕ
  blendDstRgb : ℕ
  blendSrcAlpha : ℕ
  blendDstAlpha : ℕ
  blendEquationRgb : ℕ
  blendEquationAlpha : ℕ
  enableBlend : Bool
  enableCullFace : Bool
  enableDepthTest : Bool
  enableScissorTest : Bool

/-- Full modelled GL state: the pipeline and the contents of buffer
objects (keyed by buffer name).  Object-name allocation by the driver
(`gl.GenVertexArrays`) is modelled as an oracle: the fresh name is an
input of `Render`, not tracked state. -/
structure GLState where
  pipe : Pipeline
  bufferContent : ℕ → List ℤ

/-- The GL calls issued by the `imui` package, with their arguments. -/
inductive GLCall where
  | activeTexture (unit : ℕ)
  | useProgram (program : ℕ)
  | bindTexture (target name : ℕ)
  | bindSampler (unit name : ℕ)
  | bindBuffer (target name : ℕ)
  | bindVertexArray (name : ℕ)
  | genVertexArrays (name : ℕ)
  | deleteVertexArrays (name : ℕ)
  | enable (cap : ℕ)
  | disable (cap : ℕ)
  | blendEquation (mode : ℕ)
  | blendFunc (sfactor dfactor : ℕ)
  | blendEquationSeparate (modeRgb modeAlpha : ℕ)
  | blendFuncSeparate (srcRgb dstRgb srcAlpha dstAlpha : ℕ)
  | polygonMode (face mode : ℕ)
  | viewport (x y w h : ℤ)
  | scissor (x y w h : ℤ)
  | uniform1i (location v : ℤ)
  | uniformMatrix4fv (location : ℤ) (m : List ℚ)
  | enableVertexAttribArray (index : ℕ)
  | vertexAttribPointer (index size typ : ℕ) (normalized : Bool) (stride offset : ℕ)
  | bufferData (target : ℕ) (data : List ℤ) (usage : ℕ)
  | drawElements (mode count typ offset : ℕ)
  | callUserCallback
deriving DecidableEq, Repr

/-- Semantics of one GL call on the modelled state.  `uniform1i`,
`uniformMatrix4fv`, `enableVertexAttribArray` and `vertexAttribPointer`
mutate program-object respectively vertex-array-object internals that are
not part of the modelled observable state; `callUserCallback` runs
external user code, modelled as GL-state neutral. -/
def GLCall.step (c : GLCall) (s : GLState) : GLState :=
  match c with
  | .activeTexture u => { s with pipe := { s.pipe with activeTexture := u } }
  | .useProgram p => { s with pipe := { s.pipe with program := p } }
  | .bindTexture target name =>
      if target = glTEXTURE_2D then
        { s with pipe := { s.pipe with
            texture2D := Function.update s.pipe.texture2D s.pipe.activeTexture name } }
      else s
  | .bindSampler unit name =>
      { s with pipe := { s.pipe with
          sampler := Function.update s.pipe.sampler unit name } }
  | .bindBuffer target name =>
      if target = glARRAY_BUFFER then
        { s with pipe := { s.pipe with arrayBuffer := name } }
      else if target = glELEMENT_ARRAY_BUFFER then
        { s with pipe := { s.pipe with elementArrayBuffer := name } }
      else s
  | .bindVertexArray name => { s with pipe := { s.pipe with vertexArray := name } }
  | .genVertexArrays _ => s
  | .deleteVertexArrays name =>
      if s.pipe.vertexArray = name then
        { s with pipe := { s.pipe with vertexArray := 0 } }
      else s
  | .enable cap =>
      if cap = glBLEND then { s with pipe := { s.pipe with enableBlend := true } }
      else if cap = glCULL_FACE then { s with pipe := { s.pipe with enableCullFace := true } }
      else if cap = glDEPTH_TEST then { s with pipe := { s.pipe with enableDepthTest := true } }
      else if cap = glSCISSOR_TEST then { s with pipe := { s.pipe with enableScissorTest := true } }
      else s
  | .disable cap =>
      if cap = glBLEND then { s with pipe := { s.pipe with enableBlend := false } }
      else if cap = glCULL_FACE then { s with pipe := { s.pipe with enableCullFace := false } }
      else if cap = glDEPTH_TEST then { s with pipe := { s.pipe with enableDepthTest := false } }
      else if cap = glSCISSOR_TEST then { s with pipe := { s.pipe with enableScissorTest := false } }
      else s
  | .blendEquation mode =>
      { s with pipe := { s.pipe with blendEquationRgb := mode, blendEquationAlpha := mode } }
  | .blendFunc sfactor dfactor =>
      { s with pipe := { s.pipe with
          blendSrcRgb := sfactor, blendDstRgb := dfactor,
          blendSrcAlpha := sfactor, blendDstAlpha := dfactor } }
  | .blendEquationSeparate modeRgb modeAlpha =>
      { s with pipe := { s.pipe with
          blendEquationRgb := modeRgb, blendEquationAlpha := modeAlpha } }
  | .blendFuncSeparate srcRgb dstRgb srcAlpha dstAlpha =>
      { s with pipe := { s.pipe with
          blendSrcRgb := srcRgb, blendDstRgb := dstRgb,
          blendSrcAlpha := srcAlpha, blendDstAlpha := dstAlpha } }
  | .polygonMode face mode =>
      if face = glFRONT_AND_BACK then
        { s with pipe := { s.pipe with polygonMode := mode } }
      else s
  | .viewport x y w h => { s with pipe := { s.pipe with viewport := (x, y, w, h) } }
  | .scissor x y w h => { s with pipe := { s.pipe with scissorBox := (x, y, w, h) } }
  | .uniform1i _ _ => s
  | .uniformMatrix4fv _ _ => s
  | .enableVertexAttribArray _ => s
  | .vertexAttribPointer _ _ _ _ _ _ => s
  | .bufferData target data _ =>
      if target = glARRAY_BUFFER then
        { s with bufferContent :=
            Function.update s.bufferContent s.pipe.arrayBuffer data }
      else if target = glELEMENT_ARRAY_BUFFER then
        { s with bufferContent :=
            Function.update s.bufferContent s.pipe.elementArrayBuffer data }
      else s
  | .drawElements _ _ _ _ => s
  | .callUserCallback => s

/-- Issue one call: advance the state and append the call to the trace. -/
def emit (c : GLCall) (p : GLState × List GLCall) : GLState × List GLCall :=
  (c.step p.1, p.2 ++ [c])

/-! ## Draw data (imgui output, a frame-scoped input to `Render`) -/

/-- A clip rectangle as imgui delivers it: `(X, Y)` top-left corner,
`(Z, W)` bottom-right corner, top-left-origin coordinates. -/
structure ClipRect where
  x : ℚ
  y : ℚ
  z : ℚ
  w : ℚ
deriving DecidableEq, Repr

structure DrawCmd where
  hasUserCallback : Bool
  textureID : ℕ
  clipRect : ClipRect
  elementCount : ℕ
deriving DecidableEq, Repr

structure DrawList where
  vertexData : List ℤ
  indexData : List ℤ
  commands : List DrawCmd
deriving DecidableEq, Repr

/-- `ScaleClipRects`: multiply each rectangle componentwise by the
framebuffer/display scale. -/
def scaleClipRect (sx sy : ℚ) (r : ClipRect) : ClipRect :=
  ⟨r.x * sx, r.y * sy, r.z * sx, r.w * sy⟩

/-- The handles and cached locations `Render` uses from the `IMUI` value.
The Go attribute locations are `int32`, converted with `uint32(...)` where
used; the conversion is modelled by `Int.toNat` (locations are small and
non-negative in the modelled range). -/
structure UIHandles where
  shaderHandle : ℕ
  vboHandle : ℕ
  elementsHandle : ℕ
  attribLocationTex : ℤ
  attribLocationProjMtx : ℤ
  attribLocationPosition : ℤ
  attribLocationUV : ℤ
  attribLocationColor : ℤ
deriving DecidableEq, Repr

/-- Per-frame inputs of `Render`: window and framebuffer sizes, the draw
data, and the layout values obtained once from
`imgui.VertexBufferLayout` / `imgui.IndexBufferLayout`. -/
structure RenderArgs where
  displayWidth : ℤ
  displayHeight : ℤ
  fbWidth : ℤ
  fbHeight : ℤ
  lists : List DrawList
  indexSize : ℕ
  vertexSize : ℕ
  vertexOffsetPos : ℕ
  vertexOffsetUv : ℕ
  vertexOffsetCol : ℕ
  vaoName : ℕ
deriving DecidableEq, Repr

/-- The orthographic projection matrix of `Render` (row major), with
`2 / -displayHeight` flipping the Y axis. -/
def orthoProjection (displayWidth displayHeight : ℤ) : List ℚ :=
  [2 / (displayWidth : ℚ), 0, 0, 0,
   0, 2 / -(displayHeight : ℚ), 0, 0,
   0, 0, -1, 0,
   -1, 1, 0, 1]

/-- The scissor rectangle `Render` issues for a clip rectangle:
`gl.Scissor(int32(r.X), int32(fbHeight) - int32(r.W), int32(r.Z - r.X),
int32(r.W - r.Y))`. -/
def scissorFor (fbHeight : ℤ) (r : ClipRect) : ℤ × ℤ × ℤ × ℤ :=
  (f2i r.x, fbHeight - f2i r.w, f2i (r.z - r.x), f2i (r.w - r.y))

/-- One iteration of the inner command loop of `Render`: a user-callback
command is dispatched to the callback, any other command binds its
texture, sets the scissor rectangle and issues an indexed draw at the
running index-buffer byte offset; the offset advances by
`elementCount * indexSize` for every command. -/
def cmdStep (fbHeight : ℤ) (drawType indexSize : ℕ)
    (acc : (GLState × List GLCall) × ℕ) (cmd : DrawCmd) :
    (GLState × List GLCall) × ℕ :=
  let p := acc.1
  let indexBufferOffset := acc.2
  let p :=
    if cmd.hasUserCallback then emit GLCall.callUserCallback p
    else
      let p := emit (GLCall.bindTexture glTEXTURE_2D cmd.textureID) p
      let sc := scissorFor fbHeight cmd.clipRect
      let p := emit (GLCall.scissor sc.1 sc.2.1 sc.2.2.1 sc.2.2.2) p
      emit (GLCall.drawElements glTRIANGLES cmd.elementCount drawType indexBufferOffset) p
  (p, indexBufferOffset + cmd.elementCount * indexSize)

/-- One iteration of the outer list loop of `Render`: stream the list's
vertex and index bytes into the UI's buffers, then run the command loop
with the per-list offset starting at 0. -/
def listStep (ui : UIHandles) (fbHeight : ℤ) (drawType indexSize : ℕ)
    (p : GLState × List GLCall) (list : DrawList) : GLState × List GLCall :=
  let p := emit (GLCall.bindBuffer glARRAY_BUFFER ui.vboHandle) p
  let p := emit (GLCall.bufferData glARRAY_BUFFER list.vertexData glSTREAM_DRAW) p
  let p := emit (GLCall.bindBuffer glELEMENT_ARRAY_BUFFER ui.elementsHandle) p
  let p := emit (GLCall.bufferData glELEMENT_ARRAY_BUFFER list.indexData glSTREAM_DRAW) p
  (list.commands.foldl (cmdStep fbHeight drawType indexSize) (p, 0)).1

/-- `Render` (identical in both backends): early return when a
framebuffer dimension is non-positive, else scale the clip rectangles,
back the pipeline state up (state queries are pure reads here), set the
overlay render state, rebuild the transient vertex array, replay the draw
lists and restore the backed-up state field for field.  Returns the final
state and the trace of issued GL calls. -/
def Render (ui : UIHandles) (args : RenderArgs) (s0 : GLState) :
    GLState × List GLCall :=
  if args.fbWidth ≤ 0 ∨ args.fbHeight ≤ 0 then (s0, [])
  else
    let sx := (args.fbWidth : ℚ) / (args.displayWidth : ℚ)
    let sy := (args.fbHeight : ℚ) / (args.displayHeight : ℚ)
    let scaledLists := args.lists.map fun l =>
      { l with commands := l.commands.map fun c =>
          { c with clipRect := (scaleClipRect sx sy c.clipRect) } }
    let p := (s0, ([] : List GLCall))
    let lastActiveTexture := p.1.pipe.activeTexture
    let p := emit (GLCall.activeTexture glTEXTURE0) p
    let lastProgram := p.1.pipe.program
    let lastTexture := p.1.pipe.texture2D p.1.pipe.activeTexture
    let lastSampler := p.1.pipe.sampler (p.1.pipe.activeTexture - glTEXTURE0)
    let lastArrayBuffer := p.1.pipe.arrayBuffer
    let lastElementArrayBuffer := p.1.pipe.elementArrayBuffer
    let lastVertexArray := p.1.pipe.vertexArray
    let lastPolygonMode := p.1.pipe.polygonMode
    let lastViewport := p.1.pipe.viewport
    let lastScissorBox := p.1.pipe.scissorBox
    let lastBlendSrcRgb := p.1.pipe.blendSrcRgb
    let lastBlendDstRgb := p.1.pipe.blendDstRgb
    let lastBlendSrcAlpha := p.1.pipe.blendSrcAlpha
    let lastBlendDstAlpha := p.1.pipe.blendDstAlpha
    let lastBlendEquationRgb := p.1.pipe.blendEquationRgb
    let lastBlendEquationAlpha := p.1.pipe.blendEquationAlpha
    let lastEnableBlend := p.1.pipe.enableBlend
    let lastEnableCullFace := p.1.pipe.enableCullFace
    let lastEnableDepthTest := p.1.pipe.enableDepthTest
    let lastEnableScissorTest := p.1.pipe.enableScissorTest
    let p := emit (GLCall.enable glBLEND) p
    let p := emit (GLCall.blendEquation glFUNC_ADD) p
    let p := emit (GLCall.blendFunc glSRC_ALPHA glONE_MINUS_SRC_ALPHA) p
    let p := emit (GLCall.disable glCULL_FACE) p
    let p := emit (GLCall.disable glDEPTH_TEST) p
    let p := emit (GLCall.enable glSCISSOR_TEST) p
    let p := emit (GLCall.polygonMode glFRONT_AND_BACK glFILL) p
    let p := emit (GLCall.viewport 0 0 args.fbWidth args.fbHeight) p
    let p := emit (GLCall.useProgram ui.shaderHandle) p
    let p := emit (GLCall.uniform1i ui.attribLocationTex 0) p
    let p := emit (GLCall.uniformMatrix4fv ui.attribLocationProjMtx
      (orthoProjection args.displayWidth args.displayHeight)) p
    let p := emit (GLCall.bindSampler 0 0) p
    let vaoHandle := args.vaoName
    let p := emit (GLCall.genVertexArrays vaoHandle) p
    let p := emit (GLCall.bindVertexArray vaoHandle) p
    let p := emit (GLCall.bindBuffer glARRAY_BUFFER ui.vboHandle) p
    let p := emit (GLCall.enableVertexAttribArray ui.attribLocationPosition.toNat) p
    let p := emit (GLCall.enableVertexAttribArray ui.attribLocationUV.toNat) p
    let p := emit (GLCall.enableVertexAttribArray ui.attribLocationColor.toNat) p
    let p := emit (GLCall.vertexAttribPointer ui.attribLocationPosition.toNat 2 glFLOAT
      false args.vertexSize args.vertexOffsetPos) p
    let p := emit (GLCall.vertexAttribPointer ui.attribLocationUV.toNat 2 glFLOAT
      false args.vertexSize args.vertexOffsetUv) p
    let p := emit (GLCall.vertexAttribPointer ui.attribLocationColor.toNat 4 glUNSIGNED_BYTE
      true args.vertexSize args.vertexOffsetCol) p
    let drawType := if args.indexSize = 4 then glUNSIGNED_INT else glUNSIGNED_SHORT
    let p := scaledLists.foldl (listStep ui args.fbHeight drawType args.indexSize) p
    let p := emit (GLCall.deleteVertexArrays vaoHandle) p
    let p := emit (GLCall.useProgram lastProgram) p
    let p := emit (GLCall.bindTexture glTEXTURE_2D lastTexture) p
    let p := emit (GLCall.bindSampler 0 lastSampler) p
    let p := emit (GLCall.activeTexture lastActiveTexture) p
    let p := emit (GLCall.bindVertexArray lastVertexArray) p
    let p := emit (GLCall.bindBuffer glARRAY_BUFFER lastArrayBuffer) p
    let p := emit (GLCall.bindBuffer glELEMENT_ARRAY_BUFFER lastElementArrayBuffer) p
    let p := emit (GLCall.blendEquationSeparate lastBlendEquationRgb lastBlendEquationAlpha) p
    let p := emit (GLCall.blendFuncSeparate lastBlendSrcRgb lastBlendDstRgb
      lastBlendSrcAlpha lastBlendDstAlpha) p
    let p := emit (if lastEnableBlend then GLCall.enable glBLEND else GLCall.disable glBLEND) p
    let p := emit (if lastEnableCullFace then GLCall.enable glCULL_FACE
      else GLCall.disable glCULL_FACE) p
    let p := emit (if lastEnableDepthTest then GLCall.enable glDEPTH_TEST
      else GLCall.disable glDEPTH_TEST) p
    let p := emit (if lastEnableScissorTest then GLCall.enable glSCISSOR_TEST
      else GLCall.disable glSCISSOR_TEST) p
    let p := emit (GLCall.polygonMode glFRONT_AND_BACK lastPolygonMode) p
    let p := emit (GLCall.viewport lastViewport.1 lastViewport.2.1
      lastViewport.2.2.1 lastViewport.2.2.2) p
    let p := emit (GLCall.scissor lastScissorBox.1 lastScissorBox.2.1
      lastScissorBox.2.2.1 lastScissorBox.2.2.2) p
    p

/-! ## Device object lifecycle -/

/-- The GPU handle fields of the `IMUI` struct; zero is the
"unallocated" sentinel. -/
structure DeviceObjects where
  vboHandle : ℕ
  elementsHandle : ℕ
  vertHandle : ℕ
  fragHandle : ℕ
  shaderHandle : ℕ
  fontTexture : ℕ
deriving DecidableEq, Repr

/-- The release operations `invalidateDeviceObjects` can issue. -/
inductive ReleaseOp where
  | deleteBuffer (n : ℕ)
  | detachShader (program shader : ℕ)
  | deleteShader (n : ℕ)
  | deleteProgram (n : ℕ)
  | deleteTexture (n : ℕ)
  | clearFontTextureID
deriving DecidableEq, Repr

/-- A release operation only ever names allocated (non-zero) handles. -/
def releaseOpOk : ReleaseOp → Bool
  | ReleaseOp.deleteBuffer n => n != 0
  | ReleaseOp.detachShader program shader => program != 0 && shader != 0
  | ReleaseOp.deleteShader n => n != 0
  | ReleaseOp.deleteProgram n => n != 0
  | ReleaseOp.deleteTexture n => n != 0
  | ReleaseOp.clearFontTextureID => true

/-- `invalidateDeviceObjects` (identical in both backends): every release
step is guarded by a non-zero check on the handle(s) it uses, each handle
field is set to zero afterwards (the font texture only inside its guard,
but it is zero in either case), and the imgui font-texture identifier is
cleared when the texture existed.  Returns the new handle fields and the
ordered list of release operations performed. -/
def invalidateDeviceObjects (d : DeviceObjects) : DeviceObjects × List ReleaseOp :=
  let ops :=
    (if d.vboHandle ≠ 0 then [ReleaseOp.deleteBuffer d.vboHandle] else [])
    ++ (if d.elementsHandle ≠ 0 then [ReleaseOp.deleteBuffer d.elementsHandle] else [])
    ++ (if d.shaderHandle ≠ 0 ∧ d.vertHandle ≠ 0 then
          [ReleaseOp.detachShader d.shaderHandle d.vertHandle] else [])
    ++ (if d.vertHandle ≠ 0 then [ReleaseOp.deleteShader d.vertHandle] else [])
    ++ (if d.shaderHandle ≠ 0 ∧ d.fragHandle ≠ 0 then
          [ReleaseOp.detachShader d.shaderHandle d.fragHandle] else [])
    ++ (if d.fragHandle ≠ 0 then [ReleaseOp.deleteShader d.fragHandle] else [])
    ++ (if d.shaderHandle ≠ 0 then [ReleaseOp.deleteProgram d.shaderHandle] else [])
    ++ (if d.fontTexture ≠ 0 then
          [ReleaseOp.deleteTexture d.fontTexture, ReleaseOp.clearFontTextureID] else [])
  (⟨0, 0, 0, 0, 0, 0⟩, ops)

/-! ## Shader compilation and linking

`GLEnv` abstracts the GL driver's verdicts: per-source compile status and
info log, and the link status and info log of the one program a call
builds.  Handle allocation (`gl.CreateShader` / `gl.CreateProgram`) is
abstracted to a fixed fresh name, which no claim observes. -/

structure GLEnv where
  compileStatus : String → Bool
  shaderInfoLog : String → String
  linkStatus : Bool
  programInfoLog : String

/-- A `Shader` value as in `src/utils.go`. -/
structure Shader where
  source : String
  type : ℕ

/-- `compileShader` (src/utils.go lines 118–139): on a false compile
status the error text is `failed to compile <source>: <log>` (the Go code
formats the NUL-padded log buffer; the padding is abstracted away). -/
def compileShader (env : GLEnv) (source : String) (shaderType : ℕ) :
    Except String ℕ :=
  if env.compileStatus source then Except.ok 1
  else Except.error ("failed to compile " ++ source ++ ": " ++ env.shaderInfoLog source)

/-- The compile loop of `LoadShaders`: stops at the first failing shader. -/
def compileAll (env : GLEnv) : List Shader → Except String Unit
  | [] => Except.ok ()
  | sh :: rest =>
    match compileShader env sh.source sh.type with
    | Except.error e => Except.error e
    | Except.ok _ => compileAll env rest

/-- `LoadShaders` (src/utils.go lines 83–116): fewer than two shaders is
an error; a compile failure propagates the compile error; a false link
status yields `failed to link program: <log>`; otherwise the program
handle is returned. -/
def LoadShaders (env : GLEnv) (ss : List Shader) : Except String ℕ :=
  if ss.length < 2 then
    Except.error "at least vertex and fragment shaders are needed"
  else
    match compileAll env ss with
    | Except.error e => Except.error e
    | Except.ok _ =>
      if env.linkStatus then Except.ok 1
      else Except.error ("failed to link program: " ++ env.programInfoLog)

/-- `createDeviceObjects` (src/imui/imui.go lines 340–386 and 793–839):
creates the program, the two shader stages, the two buffers and the font
texture.  It never reads `GL_COMPILE_STATUS` or `GL_LINK_STATUS` and has
no error return; the handles returned by the `gl.Create*`/`gl.Gen*` calls
are abstracted as fixed fresh non-zero names. -/
def createDeviceObjects (env : GLEnv) : DeviceObjects :=
  { shaderHandle := 1, vertHandle := 2, fragHandle := 3,
    vboHandle := 4, elementsHandle := 5, fontTexture := 6 }

/-- `NewIMUI` (GLFW backend, src/imui/imui.go lines 43–57): builds the
context, installs callbacks, calls `createDeviceObjects` and returns
`(ui, nil)` unconditionally — the error result is always `none`,
whatever the driver reported.  (The SDL variant has no error result at
all.) -/
def NewIMUI (env : GLEnv) : DeviceObjects × Option String :=
  (createDeviceObjects env, none)

/-! ## Sample values used by witnesses and counterexamples -/

/-- A driver environment in which every shader fails to compile and
linking fails. -/
def failingEnv : GLEnv :=
  { compileStatus := fun _ => false,
    shaderInfoLog := fun _ => "0:1: ERROR: syntax error",
    linkStatus := false,
    programInfoLog := "link failed" }

/-- A driver environment in which compilation succeeds but linking
fails. -/
def linkFailEnv : GLEnv :=
  { compileStatus := fun _ => true,
    shaderInfoLog := fun _ => "",
    linkStatus := false,
    programInfoLog := "error: undefined reference" }

def sampleUI : UIHandles :=
  { shaderHandle := 21, vboHandle := 22, elementsHandle := 23,
    attribLocationTex := 0, attribLocationProjMtx := 1,
    attribLocationPosition := 0, attribLocationUV := 1, attribLocationColor := 2 }

def samplePipe : Pipeline :=
  { activeTexture := glTEXTURE0 + 2, program := 7,
    texture2D := fun u => u + 40, sampler := fun u => u + 50,
    arrayBuffer := 11, elementArrayBuffer := 12, vertexArray := 13,
    polygonMode := glFILL, viewport := (1, 2, 3, 4), scissorBox := (5, 6, 7, 8),
    blendSrcRgb := 1, blendDstRgb := 2, blendSrcAlpha := 3, blendDstAlpha := 4,
    blendEquationRgb := 5, blendEquationAlpha := 6,
    enableBlend := true, enableCullFace := false,
    enableDepthTest := true, enableScissorTest := false }

def sampleState : GLState :=
  { pipe := samplePipe, bufferContent := fun _ => [] }

/-- A one-command draw list with element count `n` and no user callback. -/
def plainCmd (n : ℕ) : DrawCmd :=
  { hasUserCallback := false, textureID := 6, clipRect := ⟨0, 10, 100, 50⟩,
    elementCount := n }

def sampleArgs : RenderArgs :=
  { displayWidth := 800, displayHeight := 600, fbWidth := 800, fbHeight := 600,
    lists := [{ vertexData := [1, 2], indexData := [0], commands := [plainCmd 6] }],
    indexSize := 2, vertexSize := 20,
    vertexOffsetPos := 0, vertexOffsetUv := 8, vertexOffsetCol := 16,
    vaoName := 100 }

/-! ## Claim C1 -/

/-- C1 counterexample: in a driver environment where every shader
compilation fails (with a non-empty diagnostic log), `NewIMUI` still
returns a `nil` error — initialization reports success, contradicting the
claim that a compile failure propagates an error carrying the diagnostic
text. -/
theorem NewIMUI_succeeds_despite_compile_failure :
    failingEnv.compileStatus "#version 150" = false ∧
    failingEnv.shaderInfoLog "#version 150" ≠ "" ∧
    (NewIMUI failingEnv).2 = none := by
  refine ⟨rfl, ?_, rfl⟩
  decide

/-- C1 amended: `NewIMUI`/`createDeviceObjects` never checks compile or
link status and always returns success (`none`), whatever the driver
reports; the repository's standalone `LoadShaders` helper is the routine
that propagates an error whose payload carries the compiler respectively
linker diagnostic text. -/
theorem init_error_propagation (env : GLEnv) (s1 s2 : Shader) :
    (NewIMUI env).2 = none ∧
    (env.compileStatus s1.source = false →
      LoadShaders env [s1, s2] = Except.error
        ("failed to compile " ++ s1.source ++ ": " ++ env.shaderInfoLog s1.source)) ∧
    (env.compileStatus s1.source = true → env.compileStatus s2.source = false →
      LoadShaders env [s1, s2] = Except.error
        ("failed to compile " ++ s2.source ++ ": " ++ env.shaderInfoLog s2.source)) ∧
    (env.compileStatus s1.source = true → env.compileStatus s2.source = true →
      env.linkStatus = false →
      LoadShaders env [s1, s2] = Except.error
        ("failed to link program: " ++ env.programInfoLog)) := by
  refine ⟨rfl, ?_, ?_, ?_⟩
  · intro h1
    simp [LoadShaders, compileAll, compileShader, h1]
  · intro h1 h2
    simp [LoadShaders, compileAll, compileShader, h1, h2]
  · intro h1 h2 h3
    simp [LoadShaders, compileAll, compileShader, h1, h2, h3]

/-- C1 amended, witnessed at concrete inputs: a failed vertex-shader
compilation and a failed link each surface the respective diagnostic
text through `LoadShaders`, while `NewIMUI` reports success either way. -/
theorem init_error_propagation_witness :
    (NewIMUI failingEnv).2 = none ∧
    LoadShaders failingEnv [⟨"VSRC", 35633⟩, ⟨"FSRC", 35632⟩] = Except.error
      ("failed to compile " ++ "VSRC" ++ ": " ++ "0:1: ERROR: syntax error") ∧
    LoadShaders linkFailEnv [⟨"VSRC", 35633⟩, ⟨"FSRC", 35632⟩] = Except.error
      ("failed to link program: " ++ "error: undefined reference") :=
  ⟨(init_error_propagation failingEnv ⟨"VSRC", 35633⟩ ⟨"FSRC", 35632⟩).1,
   (init_error_propagation failingEnv ⟨"VSRC", 35633⟩ ⟨"FSRC", 35632⟩).2.1 rfl,
   (init_error_propagation linkFailEnv ⟨"VSRC", 35633⟩ ⟨"FSRC", 35632⟩).2.2.2 rfl rfl rfl⟩

/-! ## Claim C3 -/

/-- C3 counterexample: the GLFW backend's first `NewFrame` (stored time
still zero) does not call `SetDeltaTime` at all — it reports nothing,
not the claimed 1/60 fallback — even when the clock reads a small
positive value. -/
theorem glfw_first_frame_reports_no_delta :
    (glfwNewFrameDelta 0 (1 / 2)).1 = none ∧
    (glfwNewFrameDelta 0 (1 / 2)).1 ≠ some (1 / 60) := by
  constructor
  · simp [glfwNewFrameDelta]
  · simp [glfwNewFrameDelta]

/-- C3 amended: the SDL backend's first `NewFrame` reports the fixed
1/60 fallback and subsequent calls (positive stored counter, no wrap)
report the measured elapsed counter ticks over the frequency; the GLFW
backend's first `NewFrame` reports no delta at all, and subsequent calls
(positive stored time) report the measured elapsed seconds. -/
theorem frame_delta_report (curN freq prevN : ℕ) (prevQ curQ : ℚ)
    (hp : 0 < prevN) (hle : prevN ≤ curN) (hrange : curN - prevN < 2 ^ 64)
    (hq : 0 < prevQ) :
    (sdlNewFrameDelta 0 curN freq).1 = 1 / 60 ∧
    (sdlNewFrameDelta prevN curN freq).1 = ((curN - prevN : ℕ) : ℚ) / (freq : ℚ) ∧
    (glfwNewFrameDelta 0 curQ).1 = none ∧
    (glfwNewFrameDelta prevQ curQ).1 = some (curQ - prevQ) := by
  refine ⟨by simp [sdlNewFrameDelta], ?_, by simp [glfwNewFrameDelta], ?_⟩
  · have h1 : ∀ k : ℕ, curN + k - prevN = (curN - prevN) + k := fun k => by omega
    have hmod : (curN + 2 ^ 64 - prevN) % 2 ^ 64 = curN - prevN := by
      rw [h1, Nat.add_mod_right, Nat.mod_eq_of_lt hrange]
    norm_num at hmod
    simp [sdlNewFrameDelta, hp, hmod]
  · simp [glfwNewFrameDelta, hq]

/-- C3 amended witness: counter 5 → 15 at frequency 10 yields 1 second;
GLFW time 1 → 3 yields 2 seconds. -/
theorem frame_delta_report_witness :
    (sdlNewFrameDelta 0 15 10).1 = 1 / 60 ∧
    (sdlNewFrameDelta 5 15 10).1 = ((15 - 5 : ℕ) : ℚ) / ((10 : ℕ) : ℚ) ∧
    (glfwNewFrameDelta 0 3).1 = none ∧
    (glfwNewFrameDelta 1 3).1 = some (3 - 1) := by
  exact frame_delta_report 15 10 5 1 3
    (by decide) (by decide) (by decide) zero_lt_one

/-! ## Claim C4 -/

/-- C4 counterexample: the SDL backend's `NewFrame` reports the queried
cursor position unconditionally — it performs no focus check, so at an
unfocused moment with the cursor last seen at (100, 200) the reported
position is (100, 200), not the far-off-screen sentinel. -/
theorem sdl_cursor_ignores_focus :
    sdlNewFrameMousePos (100, 200) = (100, 200) ∧
    ((100 : ℚ), (200 : ℚ)) ≠ sentinelPos := by
  refine ⟨rfl, ?_⟩
  simp only [sentinelPos, ne_eq, Prod.mk.injEq, not_and]
  intro h
  norm_num at h

/-- C4 amended: only the GLFW backend substitutes the sentinel position
`(-MaxFloat32, -MaxFloat32)` when the window is unfocused (and reports
the queried cursor when focused); the SDL backend always reports the
queried cursor position. -/
theorem cursor_sentinel_report (c q : ℚ × ℚ) :
    glfwNewFrameMousePos false c = sentinelPos ∧
    glfwNewFrameMousePos true c = c ∧
    sdlNewFrameMousePos q = q :=
  ⟨rfl, rfl, rfl⟩

/-! ## Claim C5 -/

/-- C5 counterexample: the GLFW backend's scroll callback forwards the
raw event magnitude — a wheel event with per-axis value 3 adds 3 to the
wheel accumulator, not the sign +1. -/
theorem glfw_wheel_raw_magnitude :
    glfwScrollDelta 0 3 = (0, 3) ∧ glfwScrollDelta 0 3 ≠ (0, 1) := by
  refine ⟨rfl, ?_⟩
  simp [glfwScrollDelta]

/-- C5 amended: the SDL backend's `ProcessEvent` adds exactly the
per-axis sign (+1, −1 or 0) of the wheel event to the accumulator, while
the GLFW backend's scroll callback adds the raw per-axis values
unchanged. -/
theorem wheel_delta_sign (x y : ℤ) (a b : ℚ) :
    sdlWheelDelta x y = (((x.sign : ℤ) : ℚ), ((y.sign : ℤ) : ℚ)) ∧
    glfwScrollDelta a b = (a, b) := by
  refine ⟨?_, rfl⟩
  unfold sdlWheelDelta
  have hax : ∀ z : ℤ, (if z > 0 then (1 : ℚ) else if z < 0 then -1 else 0) =
      ((z.sign : ℤ) : ℚ) := by
    intro z
    by_cases h1 : 0 < z
    · simp [h1, Int.sign_eq_one_iff_pos.mpr h1]
    · by_cases h2 : z < 0
      · simp [h1, h2, Int.sign_eq_neg_one_iff_neg.mpr h2]
      · have hz : z = 0 := le_antisymm (not_lt.mp h1) (not_lt.mp h2)
        simp [hz]
  rw [Prod.mk.injEq]
  exact ⟨hax x, hax y⟩

/-! ## Claim C2 -/

lemma finRange_three : List.finRange 3 = [0, 1, 2] := by decide

lemma glfwButtonID_roundtrip (i : Fin 3) :
    glfwButtonIndexByID (glfwButtonIDByIndex i) = some i := by
  fin_cases i <;> decide

/-- A true latch survives any further button event. -/
lemma mouseButtonChange_mono (latch : Fin 3 → Bool) (b : ℕ) (a : GlfwAction)
    (j : Fin 3) (h : latch j = true) : mouseButtonChange latch b a j = true := by
  unfold mouseButtonChange
  cases glfwButtonIndexByID b with
  | none => exact h
  | some i =>
      simp only
      split
      · rcases eq_or_ne j i with rfl | hne
        · simp
        · simpa [Function.update_noteq hne]
      · exact h

lemma glfw_latch_mono (events : List (ℕ × GlfwAction)) :
    ∀ (latch : Fin 3 → Bool) (j : Fin 3), latch j = true →
      processGlfwButtonEvents latch events j = true := by
  induction events with
  | nil => intro latch j h; exact h
  | cons e es ih =>
      intro latch j h
      rw [processGlfwButtonEvents, List.foldl_cons]
      exact ih _ j (mouseButtonChange_mono latch e.1 e.2 j h)

/-- A press of button `i` anywhere in the inter-frame event list leaves
the GLFW latch for `i` set when the next frame begins. -/
lemma glfw_latch_set (latch : Fin 3 → Bool) (events : List (ℕ × GlfwAction))
    (i : Fin 3) (hpress : (glfwButtonIDByIndex i, GlfwAction.press) ∈ events) :
    processGlfwButtonEvents latch events i = true := by
  induction events generalizing latch with
  | nil => cases hpress
  | cons e es ih =>
      rw [processGlfwButtonEvents, List.foldl_cons]
      rcases List.mem_cons.mp hpress with he | he
      · have hset : mouseButtonChange latch e.1 e.2 i = true := by
          rw [← he]
          unfold mouseButtonChange
          rw [glfwButtonID_roundtrip]
          simp
        exact glfw_latch_mono es _ i hset
      · exact ih _ he

lemma sdlProcessEventButtons_mono (latch : Fin 3 → Bool) (e : SdlEvent)
    (j : Fin 3) (h : latch j = true) : sdlProcessEventButtons latch e j = true := by
  unfold sdlProcessEventButtons
  cases e <;> simp only
  case mouseButtonDown b =>
    split
    · rcases eq_or_ne j mouseButtonPrimary with rfl | hne
      · simp
      · simpa [Function.update_noteq hne]
    · split
      · rcases eq_or_ne j mouseButtonSecondary with rfl | hne
        · simp
        · simpa [Function.update_noteq hne]
      · split
        · rcases eq_or_ne j mouseButtonTertiary with rfl | hne
          · simp
          · simpa [Function.update_noteq hne]
        · exact h
  all_goals exact h

lemma sdl_latch_mono (events : List SdlEvent) :
    ∀ (latch : Fin 3 → Bool) (j : Fin 3), latch j = true →
      processSdlEvents latch events j = true := by
  induction events with
  | nil => intro latch j h; exact h
  | cons e es ih =>
      intro latch j h
      rw [processSdlEvents, List.foldl_cons]
      exact ih _ j (sdlProcessEventButtons_mono latch e j h)

/-- A press of framed button `i` anywhere in the inter-frame event list
leaves the SDL latch for `i` set when the next frame begins. -/
lemma sdl_latch_set (latch : Fin 3 → Bool) (events : List SdlEvent)
    (i : Fin 3) (hpress : SdlEvent.mouseButtonDown (sdlFrameButtonOrder i) ∈ events) :
    processSdlEvents latch events i = true := by
  induction events generalizing latch with
  | nil => cases hpress
  | cons e es ih =>
      rw [processSdlEvents, List.foldl_cons]
      rcases List.mem_cons.mp hpress with he | he
      · have hset : sdlProcessEventButtons latch e i = true := by
          rw [← he]
          fin_cases i <;>
            simp [sdlProcessEventButtons, sdlFrameButtonOrder, sdlButtonLeft,
              sdlButtonRight, sdlButtonMiddle, mouseButtonPrimary,
              mouseButtonSecondary, mouseButtonTertiary]
        exact sdl_latch_mono es _ i hset
      · exact ih _ he

/-- Filtering the three per-frame `SetMouseButtonDown` calls down to
index `i` leaves exactly the one call for `i`. -/
lemma newFrame_filter (f : Fin 3 → Bool) (i : Fin 3) :
    ((List.finRange 3).map (fun j => (j, f j))).filter (fun c => c.1 = i) =
      [(i, f i)] := by
  fin_cases i <;> simp [finRange_three, List.filter]

/-- C2: after any inter-frame event sequence containing a press of
tracked button `i` (in particular press-then-release within one polling
gap, so the host reports the button as currently up), the next `NewFrame`
of either backend makes exactly one `SetMouseButtonDown` call for index
`i`, reporting it as down, and the pending-press latch for `i` is false
once the frame setup returns. -/
theorem button_latch_correctness (latch : Fin 3 → Bool)
    (events : List (ℕ × GlfwAction)) (hostDown : Fin 3 → Bool) (i : Fin 3)
    (sdlLatch : Fin 3 → Bool) (sdlEvents : List SdlEvent) (state : ℕ)
    (hpress : (glfwButtonIDByIndex i, GlfwAction.press) ∈ events)
    (hhost : hostDown i = false)
    (hsdlpress : SdlEvent.mouseButtonDown (sdlFrameButtonOrder i) ∈ sdlEvents)
    (hsdlhost : state.land (sdlButtonMask (sdlFrameButtonOrder i)) = 0) :
    ((glfwNewFrameMouseButtons (processGlfwButtonEvents latch events) hostDown).1.filter
        (fun c => c.1 = i)) = [(i, true)] ∧
    (glfwNewFrameMouseButtons (processGlfwButtonEvents latch events) hostDown).2 i = false ∧
    ((sdlNewFrameMouseButtons (processSdlEvents sdlLatch sdlEvents) state).1.filter
        (fun c => c.1 = i)) = [(i, true)] ∧
    (sdlNewFrameMouseButtons (processSdlEvents sdlLatch sdlEvents) state).2 i = false := by
  have hglfw := glfw_latch_set latch events i hpress
  have hsdl := sdl_latch_set sdlLatch sdlEvents i hsdlpress
  refine ⟨?_, rfl, ?_, rfl⟩
  · show ((List.finRange 3).map fun j =>
        (j, processGlfwButtonEvents latch events j || hostDown j)).filter
        (fun c => c.1 = i) = [(i, true)]
    rw [newFrame_filter]
    simp [hglfw]
  · show ((List.finRange 3).map fun j =>
        (j, processSdlEvents sdlLatch sdlEvents j ||
          decide (state.land (sdlButtonMask (sdlFrameButtonOrder j)) ≠ 0))).filter
        (fun c => c.1 = i) = [(i, true)]
    rw [newFrame_filter]
    simp [hsdl]

/-- C2 witness: button 0 pressed and released between frames, host
reporting it up at frame time, in both backends. -/
theorem button_latch_correctness_witness :
    ((glfwNewFrameMouseButtons (processGlfwButtonEvents (fun _ => false)
        [(0, GlfwAction.press), (0, GlfwAction.release)]) (fun _ => false)).1.filter
        (fun c => c.1 = (0 : Fin 3))) = [((0 : Fin 3), true)] ∧
    (glfwNewFrameMouseButtons (processGlfwButtonEvents (fun _ => false)
        [(0, GlfwAction.press), (0, GlfwAction.release)]) (fun _ => false)).2 0 = false ∧
    ((sdlNewFrameMouseButtons (processSdlEvents (fun _ => false)
        [SdlEvent.mouseButtonDown 1]) 0).1.filter
        (fun c => c.1 = (0 : Fin 3))) = [((0 : Fin 3), true)] ∧
    (sdlNewFrameMouseButtons (processSdlEvents (fun _ => false)
        [SdlEvent.mouseButtonDown 1]) 0).2 0 = false :=
  button_latch_correctness (fun _ => false)
    [(0, GlfwAction.press), (0, GlfwAction.release)] (fun _ => false) 0
    (fun _ => false) [SdlEvent.mouseButtonDown 1] 0
    (by decide) rfl (by decide) (by decide)

/-! ## Claim C9 -/

/-- C9: tearing down a partially initialized device-object set releases
only the allocated handles — every emitted release or detach operation
names exclusively non-zero handles — and leaves every handle field equal
to zero.  (`invalidateDeviceObjects` is a total function: it cannot
raise.) -/
theorem invalidate_device_objects_safe (d : DeviceObjects) :
    (invalidateDeviceObjects d).1 = ⟨0, 0, 0, 0, 0, 0⟩ ∧
    ((invalidateDeviceObjects d).2.all releaseOpOk) = true := by
  refine ⟨rfl, ?_⟩
  unfold invalidateDeviceObjects
  simp only [List.all_append, Bool.and_eq_true]
  refine ⟨⟨⟨⟨⟨⟨⟨?_, ?_⟩, ?_⟩, ?_⟩, ?_⟩, ?_⟩, ?_⟩, ?_⟩ <;>
    (split <;> simp_all [releaseOpOk])

/-! ## Claim C10 -/

/-- C10: a `Render` call with a non-positive framebuffer dimension
returns before issuing any GL call: the state is returned unchanged and
the trace of issued calls is empty. -/
theorem render_minimized_noop (ui : UIHandles) (args : RenderArgs) (s : GLState)
    (h : args.fbWidth ≤ 0 ∨ args.fbHeight ≤ 0) :
    Render ui args s = (s, []) := by
  unfold Render
  rw [if_pos h]

/-- C10 witness: a zero-width framebuffer (and, separately, a zero-height
one) renders to an unchanged state with an empty call trace. -/
theorem render_minimized_noop_witness :
    Render sampleUI { sampleArgs with fbWidth := 0 } sampleState = (sampleState, []) ∧
    Render sampleUI { sampleArgs with fbHeight := 0 } sampleState = (sampleState, []) :=
  ⟨render_minimized_noop sampleUI { sampleArgs with fbWidth := 0 } sampleState
      (Or.inl (by decide)),
   render_minimized_noop sampleUI { sampleArgs with fbHeight := 0 } sampleState
      (Or.inr (by decide))⟩

/-! ## Claim C6 -/

/-- The pipeline fields the draw loop of `Render` can never modify: the
loop binds buffers and textures and sets scissor rectangles, but it
leaves the active texture unit, the program, all sampler bindings, the
vertex-array binding, polygon mode, viewport, the six blend values, the
four enable flags, and every texture binding of a unit other than the
currently active one untouched. -/
def LoopPreserved (s t : GLState) : Prop :=
  t.pipe.activeTexture = s.pipe.activeTexture ∧
  t.pipe.program = s.pipe.program ∧
  t.pipe.sampler = s.pipe.sampler ∧
  t.pipe.vertexArray = s.pipe.vertexArray ∧
  t.pipe.polygonMode = s.pipe.polygonMode ∧
  t.pipe.viewport = s.pipe.viewport ∧
  t.pipe.blendSrcRgb = s.pipe.blendSrcRgb ∧
  t.pipe.blendDstRgb = s.pipe.blendDstRgb ∧
  t.pipe.blendSrcAlpha = s.pipe.blendSrcAlpha ∧
  t.pipe.blendDstAlpha = s.pipe.blendDstAlpha ∧
  t.pipe.blendEquationRgb = s.pipe.blendEquationRgb ∧
  t.pipe.blendEquationAlpha = s.pipe.blendEquationAlpha ∧
  t.pipe.enableBlend = s.pipe.enableBlend ∧
  t.pipe.enableCullFace = s.pipe.enableCullFace ∧
  t.pipe.enableDepthTest = s.pipe.enableDepthTest ∧
  t.pipe.enableScissorTest = s.pipe.enableScissorTest ∧
  ∀ u, u ≠ s.pipe.activeTexture → t.pipe.texture2D u = s.pipe.texture2D u

lemma loopPreserved_refl (s : GLState) : LoopPreserved s s :=
  ⟨rfl, rfl, rfl, rfl, rfl, rfl, rfl, rfl, rfl, rfl, rfl, rfl, rfl, rfl, rfl, rfl,
   fun _ _ => rfl⟩

lemma loopPreserved_trans {r s t : GLState} (h1 : LoopPreserved r s)
    (h2 : LoopPreserved s t) : LoopPreserved r t := by
  obtain ⟨a1, a2, a3, a4, a5, a6, a7, a8, a9, a10, a11, a12, a13, a14, a15, a16, a17⟩ := h1
  obtain ⟨b1, b2, b3, b4, b5, b6, b7, b8, b9, b10, b11, b12, b13, b14, b15, b16, b17⟩ := h2
  refine ⟨b1.trans a1, b2.trans a2, b3.trans a3, b4.trans a4, b5.trans a5, b6.trans a6,
    b7.trans a7, b8.trans a8, b9.trans a9, b10.trans a10, b11.trans a11, b12.trans a12,
    b13.trans a13, b14.trans a14, b15.trans a15, b16.trans a16, ?_⟩
  intro u hu
  rw [b17 u (by rw [a1]; exact hu), a17 u hu]

lemma cmdStep_pres (fbH : ℤ) (dt is : ℕ) (q : (GLState × List GLCall) × ℕ)
    (c : DrawCmd) : LoopPreserved q.1.1 ((cmdStep fbH dt is q c).1.1) := by
  by_cases hcb : c.hasUserCallback
  · simp only [cmdStep, hcb, if_true, emit, GLCall.step]
    exact loopPreserved_refl _
  · simp only [cmdStep, hcb, Bool.false_eq_true, if_false, emit, GLCall.step,
      glTEXTURE_2D, reduceIte]
    refine ⟨rfl, rfl, rfl, rfl, rfl, rfl, rfl, rfl, rfl, rfl, rfl, rfl, rfl, rfl, rfl,
      rfl, ?_⟩
    intro u hu
    exact Function.update_noteq hu _ _

lemma cmdFold_pres (fbH : ℤ) (dt is : ℕ) (cs : List DrawCmd) :
    ∀ q, LoopPreserved q.1.1 ((cs.foldl (cmdStep fbH dt is) q).1.1) := by
  induction cs with
  | nil => intro q; exact loopPreserved_refl _
  | cons c cs ih =>
      intro q
      rw [List.foldl_cons]
      exact loopPreserved_trans (cmdStep_pres fbH dt is q c) (ih _)

lemma listStep_pres (ui : UIHandles) (fbH : ℤ) (dt is : ℕ)
    (p : GLState × List GLCall) (l : DrawList) :
    LoopPreserved p.1 ((listStep ui fbH dt is p l).1) := by
  unfold listStep
  refine loopPreserved_trans ?_ (cmdFold_pres fbH dt is l.commands _)
  simp only [emit, GLCall.step, glARRAY_BUFFER, glELEMENT_ARRAY_BUFFER, reduceIte]
  exact ⟨rfl, rfl, rfl, rfl, rfl, rfl, rfl, rfl, rfl, rfl, rfl, rfl, rfl, rfl, rfl,
    rfl, fun _ _ => rfl⟩

lemma listFold_pres (ui : UIHandles) (fbH : ℤ) (dt is : ℕ) (L : List DrawList) :
    ∀ p, LoopPreserved p.1 ((L.foldl (listStep ui fbH dt is) p).1) := by
  induction L with
  | nil => intro p; exact loopPreserved_refl _
  | cons l L ih =>
      intro p
      rw [List.foldl_cons]
      exact loopPreserved_trans (listStep_pres ui fbH dt is p l) (ih _)

lemma listFold_activeTexture (ui : UIHandles) (fbH : ℤ) (dt is : ℕ)
    (L : List DrawList) (p : GLState × List GLCall) :
    ((L.foldl (listStep ui fbH dt is) p).1).pipe.activeTexture =
      p.1.pipe.activeTexture := (listFold_pres ui fbH dt is L p).1

lemma listFold_program (ui : UIHandles) (fbH : ℤ) (dt is : ℕ)
    (L : List DrawList) (p : GLState × List GLCall) :
    ((L.foldl (listStep ui fbH dt is) p).1).pipe.program = p.1.pipe.program :=
  (listFold_pres ui fbH dt is L p).2.1

lemma listFold_sampler (ui : UIHandles) (fbH : ℤ) (dt is : ℕ)
    (L : List DrawList) (p : GLState × List GLCall) :
    ((L.foldl (listStep ui fbH dt is) p).1).pipe.sampler = p.1.pipe.sampler :=
  (listFold_pres ui fbH dt is L p).2.2.1

lemma listFold_vertexArray (ui : UIHandles) (fbH : ℤ) (dt is : ℕ)
    (L : List DrawList) (p : GLState × List GLCall) :
    ((L.foldl (listStep ui fbH dt is) p).1).pipe.vertexArray = p.1.pipe.vertexArray :=
  (listFold_pres ui fbH dt is L p).2.2.2.1

lemma listFold_polygonMode (ui : UIHandles) (fbH : ℤ) (dt is : ℕ)
    (L : List DrawList) (p : GLState × List GLCall) :
    ((L.foldl (listStep ui fbH dt is) p).1).pipe.polygonMode = p.1.pipe.polygonMode :=
  (listFold_pres ui fbH dt is L p).2.2.2.2.1

lemma listFold_viewport (ui : UIHandles) (fbH : ℤ) (dt is : ℕ)
    (L : List DrawList) (p : GLState × List GLCall) :
    ((L.foldl (listStep ui fbH dt is) p).1).pipe.viewport = p.1.pipe.viewport :=
  (listFold_pres ui fbH dt is L p).2.2.2.2.2.1

lemma listFold_blendSrcRgb (ui : UIHandles) (fbH : ℤ) (dt is : ℕ)
    (L : List DrawList) (p : GLState × List GLCall) :
    ((L.foldl (listStep ui fbH dt is) p).1).pipe.blendSrcRgb = p.1.pipe.blendSrcRgb :=
  (listFold_pres ui fbH dt is L p).2.2.2.2.2.2.1

lemma listFold_blendDstRgb (ui : UIHandles) (fbH : ℤ) (dt is : ℕ)
    (L : List DrawList) (p : GLState × List GLCall) :
    ((L.foldl (listStep ui fbH dt is) p).1).pipe.blendDstRgb = p.1.pipe.blendDstRgb :=
  (listFold_pres ui fbH dt is L p).2.2.2.2.2.2.2.1

lemma listFold_blendSrcAlpha (ui : UIHandles) (fbH : ℤ) (dt is : ℕ)
    (L : List DrawList) (p : GLState × List GLCall) :
    ((L.foldl (listStep ui fbH dt is) p).1).pipe.blendSrcAlpha = p.1.pipe.blendSrcAlpha :=
  (listFold_pres ui fbH dt is L p).2.2.2.2.2.2.2.2.1

lemma listFold_blendDstAlpha (ui : UIHandles) (fbH : ℤ) (dt is : ℕ)
    (L : List DrawList) (p : GLState × List GLCall) :
    ((L.foldl (listStep ui fbH dt is) p).1).pipe.blendDstAlpha = p.1.pipe.blendDstAlpha :=
  (listFold_pres ui fbH dt is L p).2.2.2.2.2.2.2.2.2.1

lemma listFold_blendEquationRgb (ui : UIHandles) (fbH : ℤ) (dt is : ℕ)
    (L : List DrawList) (p : GLState × List GLCall) :
    ((L.foldl (listStep ui fbH dt is) p).1).pipe.blendEquationRgb =
      p.1.pipe.blendEquationRgb :=
  (listFold_pres ui fbH dt is L p).2.2.2.2.2.2.2.2.2.2.1

lemma listFold_blendEquationAlpha (ui : UIHandles) (fbH : ℤ) (dt is : ℕ)
    (L : List DrawList) (p : GLState × List GLCall) :
    ((L.foldl (listStep ui fbH dt is) p).1).pipe.blendEquationAlpha =
      p.1.pipe.blendEquationAlpha :=
  (listFold_pres ui fbH dt is L p).2.2.2.2.2.2.2.2.2.2.2.1

lemma listFold_enableBlend (ui : UIHandles) (fbH : ℤ) (dt is : ℕ)
    (L : List DrawList) (p : GLState × List GLCall) :
    ((L.foldl (listStep ui fbH dt is) p).1).pipe.enableBlend = p.1.pipe.enableBlend :=
  (listFold_pres ui fbH dt is L p).2.2.2.2.2.2.2.2.2.2.2.2.1

lemma listFold_enableCullFace (ui : UIHandles) (fbH : ℤ) (dt is : ℕ)
    (L : List DrawList) (p : GLState × List GLCall) :
    ((L.foldl (listStep ui fbH dt is) p).1).pipe.enableCullFace =
      p.1.pipe.enableCullFace :=
  (listFold_pres ui fbH dt is L p).2.2.2.2.2.2.2.2.2.2.2.2.2.1

lemma listFold_enableDepthTest (ui : UIHandles) (fbH : ℤ) (dt is : ℕ)
    (L : List DrawList) (p : GLState × List GLCall) :
    ((L.foldl (listStep ui fbH dt is) p).1).pipe.enableDepthTest =
      p.1.pipe.enableDepthTest :=
  (listFold_pres ui fbH dt is L p).2.2.2.2.2.2.2.2.2.2.2.2.2.2.1

lemma listFold_enableScissorTest (ui : UIHandles) (fbH : ℤ) (dt is : ℕ)
    (L : List DrawList) (p : GLState × List GLCall) :
    ((L.foldl (listStep ui fbH dt is) p).1).pipe.enableScissorTest =
      p.1.pipe.enableScissorTest :=
  (listFold_pres ui fbH dt is L p).2.2.2.2.2.2.2.2.2.2.2.2.2.2.2.1

lemma listFold_texture2D (ui : UIHandles) (fbH : ℤ) (dt is : ℕ)
    (L : List DrawList) (p : GLState × List GLCall) (u : ℕ)
    (hu : u ≠ p.1.pipe.activeTexture) :
    ((L.foldl (listStep ui fbH dt is) p).1).pipe.texture2D u =
      p.1.pipe.texture2D u :=
  (listFold_pres ui fbH dt is L p).2.2.2.2.2.2.2.2.2.2.2.2.2.2.2.2 u hu

/-- The conditional restore of an enable flag sets the flag back to the
saved boolean. -/
lemma step_restore_blend (b : Bool) (s : GLState) :
    GLCall.step (if b then GLCall.enable glBLEND else GLCall.disable glBLEND) s =
      { s with pipe := { s.pipe with enableBlend := b } } := by
  cases b <;> simp [GLCall.step]

lemma step_restore_cull (b : Bool) (s : GLState) :
    GLCall.step (if b then GLCall.enable glCULL_FACE else GLCall.disable glCULL_FACE) s =
      { s with pipe := { s.pipe with enableCullFace := b } } := by
  cases b <;> simp [GLCall.step, glBLEND, glCULL_FACE]

lemma step_restore_depth (b : Bool) (s : GLState) :
    GLCall.step (if b then GLCall.enable glDEPTH_TEST else GLCall.disable glDEPTH_TEST) s =
      { s with pipe := { s.pipe with enableDepthTest := b } } := by
  cases b <;> simp [GLCall.step, glBLEND, glCULL_FACE, glDEPTH_TEST]

lemma step_restore_scissor (b : Bool) (s : GLState) :
    GLCall.step (if b then GLCall.enable glSCISSOR_TEST else GLCall.disable glSCISSOR_TEST) s =
      { s with pipe := { s.pipe with enableScissorTest := b } } := by
  cases b <;> simp [GLCall.step, glBLEND, glCULL_FACE, glDEPTH_TEST, glSCISSOR_TEST]

/-- The state component of `emit`. -/
lemma emit_fst (c : GLCall) (p : GLState × List GLCall) :
    (emit c p).1 = GLCall.step c p.1 := rfl

set_option maxHeartbeats 1000000 in
/-- The restore tail of `Render`, taken over an arbitrary post-loop
state `st`: rebinding each saved value puts every pipeline field back to
its `s0` value, given that the loop left the active unit on
`gl.TEXTURE0`, left the transient vertex array bound, left the sampler
map as the setup wrote it, and touched no texture binding of another
unit. -/
lemma restore_chain (s0 : GLState) (vao : ℕ) (st : GLState)
    (hactive : st.pipe.activeTexture = glTEXTURE0)
    (hvao : st.pipe.vertexArray = vao)
    (hsam : st.pipe.sampler = Function.update s0.pipe.sampler 0 0)
    (htex : ∀ u, u ≠ glTEXTURE0 → st.pipe.texture2D u = s0.pipe.texture2D u) :
    (GLCall.step (GLCall.scissor s0.pipe.scissorBox.1 s0.pipe.scissorBox.2.1
        s0.pipe.scissorBox.2.2.1 s0.pipe.scissorBox.2.2.2)
      (GLCall.step (GLCall.viewport s0.pipe.viewport.1 s0.pipe.viewport.2.1
        s0.pipe.viewport.2.2.1 s0.pipe.viewport.2.2.2)
      (GLCall.step (GLCall.polygonMode glFRONT_AND_BACK s0.pipe.polygonMode)
      (GLCall.step (if s0.pipe.enableScissorTest then GLCall.enable glSCISSOR_TEST
        else GLCall.disable glSCISSOR_TEST)
      (GLCall.step (if s0.pipe.enableDepthTest then GLCall.enable glDEPTH_TEST
        else GLCall.disable glDEPTH_TEST)
      (GLCall.step (if s0.pipe.enableCullFace then GLCall.enable glCULL_FACE
        else GLCall.disable glCULL_FACE)
      (GLCall.step (if s0.pipe.enableBlend then GLCall.enable glBLEND
        else GLCall.disable glBLEND)
      (GLCall.step (GLCall.blendFuncSeparate s0.pipe.blendSrcRgb s0.pipe.blendDstRgb
        s0.pipe.blendSrcAlpha s0.pipe.blendDstAlpha)
      (GLCall.step (GLCall.blendEquationSeparate s0.pipe.blendEquationRgb
        s0.pipe.blendEquationAlpha)
      (GLCall.step (GLCall.bindBuffer glELEMENT_ARRAY_BUFFER s0.pipe.elementArrayBuffer)
      (GLCall.step (GLCall.bindBuffer glARRAY_BUFFER s0.pipe.arrayBuffer)
      (GLCall.step (GLCall.bindVertexArray s0.pipe.vertexArray)
      (GLCall.step (GLCall.activeTexture s0.pipe.activeTexture)
      (GLCall.step (GLCall.bindSampler 0 (s0.pipe.sampler 0))
      (GLCall.step (GLCall.bindTexture glTEXTURE_2D (s0.pipe.texture2D glTEXTURE0))
      (GLCall.step (GLCall.useProgram s0.pipe.program)
      (GLCall.step (GLCall.deleteVertexArrays vao) st))))))))))))))))).pipe = s0.pipe := by
  obtain ⟨⟨a1, a2, tex, sam, a5, a6, a7, a8, vp, sc, b1, b2, b3, b4, b5, b6,
    e1, e2, e3, e4⟩, bc⟩ := st
  simp only at hactive hvao hsam htex
  subst hactive
  subst hvao
  have htex2 : Function.update tex glTEXTURE0 (s0.pipe.texture2D glTEXTURE0) =
      s0.pipe.texture2D := by
    funext u
    by_cases hu : u = glTEXTURE0
    · subst hu
      rw [Function.update_same]
    · rw [Function.update_noteq hu]
      exact htex u hu
  have hsam2 : Function.update sam 0 (s0.pipe.sampler 0) = s0.pipe.sampler := by
    rw [hsam, Function.update_idem, Function.update_eq_self]
  rw [show GLCall.step (GLCall.deleteVertexArrays a7)
      ⟨⟨glTEXTURE0, a2, tex, sam, a5, a6, a7, a8, vp, sc, b1, b2, b3, b4, b5, b6,
        e1, e2, e3, e4⟩, bc⟩ =
      ⟨⟨glTEXTURE0, a2, tex, sam, a5, a6, 0, a8, vp, sc, b1, b2, b3, b4, b5, b6,
        e1, e2, e3, e4⟩, bc⟩ from by simp [GLCall.step]]
  cases hb1 : s0.pipe.enableBlend <;> cases hb2 : s0.pipe.enableCullFace <;>
    cases hb3 : s0.pipe.enableDepthTest <;> cases hb4 : s0.pipe.enableScissorTest <;>
    · simp only [GLCall.step, glARRAY_BUFFER, glELEMENT_ARRAY_BUFFER, glBLEND,
        glCULL_FACE, glDEPTH_TEST, glSCISSOR_TEST, glFRONT_AND_BACK,
        eq_self_iff_true, if_true, Bool.false_eq_true, if_false, reduceIte]
      exact Pipeline.ext rfl rfl htex2 hsam2 rfl rfl rfl rfl rfl rfl rfl rfl rfl rfl
        rfl rfl hb1.symm hb2.symm hb3.symm hb4.symm

set_option maxHeartbeats 1000000 in
/-- The state and trace of the backup/setup/vertex-array prefix of
`Render`, evaluated to an explicit literal. -/
lemma setup_pair (ui : UIHandles) (args : RenderArgs) (s0 : GLState) :
    (emit (GLCall.vertexAttribPointer ui.attribLocationColor.toNat 4 glUNSIGNED_BYTE
      true args.vertexSize args.vertexOffsetCol)
    (emit (GLCall.vertexAttribPointer ui.attribLocationUV.toNat 2 glFLOAT
      false args.vertexSize args.vertexOffsetUv)
    (emit (GLCall.vertexAttribPointer ui.attribLocationPosition.toNat 2 glFLOAT
      false args.vertexSize args.vertexOffsetPos)
    (emit (GLCall.enableVertexAttribArray ui.attribLocationColor.toNat)
    (emit (GLCall.enableVertexAttribArray ui.attribLocationUV.toNat)
    (emit (GLCall.enableVertexAttribArray ui.attribLocationPosition.toNat)
    (emit (GLCall.bindBuffer glARRAY_BUFFER ui.vboHandle)
    (emit (GLCall.bindVertexArray args.vaoName)
    (emit (GLCall.genVertexArrays args.vaoName)
    (emit (GLCall.bindSampler 0 0)
    (emit (GLCall.uniformMatrix4fv ui.attribLocationProjMtx
      (orthoProjection args.displayWidth args.displayHeight))
    (emit (GLCall.uniform1i ui.attribLocationTex 0)
    (emit (GLCall.useProgram ui.shaderHandle)
    (emit (GLCall.viewport 0 0 args.fbWidth args.fbHeight)
    (emit (GLCall.polygonMode glFRONT_AND_BACK glFILL)
    (emit (GLCall.enable glSCISSOR_TEST)
    (emit (GLCall.disable glDEPTH_TEST)
    (emit (GLCall.disable glCULL_FACE)
    (emit (GLCall.blendFunc glSRC_ALPHA glONE_MINUS_SRC_ALPHA)
    (emit (GLCall.blendEquation glFUNC_ADD)
    (emit (GLCall.enable glBLEND)
    (emit (GLCall.activeTexture glTEXTURE0)
      (s0, ([] : List GLCall)))))))))))))))))))))))) =
    (⟨⟨glTEXTURE0, ui.shaderHandle, s0.pipe.texture2D,
        Function.update s0.pipe.sampler 0 0, ui.vboHandle,
        s0.pipe.elementArrayBuffer, args.vaoName, glFILL,
        (0, 0, args.fbWidth, args.fbHeight), s0.pipe.scissorBox,
        glSRC_ALPHA, glONE_MINUS_SRC_ALPHA, glSRC_ALPHA, glONE_MINUS_SRC_ALPHA,
        glFUNC_ADD, glFUNC_ADD, true, false, false, true⟩, s0.bufferContent⟩,
     [GLCall.activeTexture glTEXTURE0,
      GLCall.enable glBLEND,
      GLCall.blendEquation glFUNC_ADD,
      GLCall.blendFunc glSRC_ALPHA glONE_MINUS_SRC_ALPHA,
      GLCall.disable glCULL_FACE,
      GLCall.disable glDEPTH_TEST,
      GLCall.enable glSCISSOR_TEST,
      GLCall.polygonMode glFRONT_AND_BACK glFILL,
      GLCall.viewport 0 0 args.fbWidth args.fbHeight,
      GLCall.useProgram ui.shaderHandle,
      GLCall.uniform1i ui.attribLocationTex 0,
      GLCall.uniformMatrix4fv ui.attribLocationProjMtx
        (orthoProjection args.displayWidth args.displayHeight),
      GLCall.bindSampler 0 0,
      GLCall.genVertexArrays args.vaoName,
      GLCall.bindVertexArray args.vaoName,
      GLCall.bindBuffer glARRAY_BUFFER ui.vboHandle,
      GLCall.enableVertexAttribArray ui.attribLocationPosition.toNat,
      GLCall.enableVertexAttribArray ui.attribLocationUV.toNat,
      GLCall.enableVertexAttribArray ui.attribLocationColor.toNat,
      GLCall.vertexAttribPointer ui.attribLocationPosition.toNat 2 glFLOAT
        false args.vertexSize args.vertexOffsetPos,
      GLCall.vertexAttribPointer ui.attribLocationUV.toNat 2 glFLOAT
        false args.vertexSize args.vertexOffsetUv,
      GLCall.vertexAttribPointer ui.attribLocationColor.toNat 4 glUNSIGNED_BYTE
        true args.vertexSize args.vertexOffsetCol]) := by
  obtain ⟨⟨a1, a2, tex, sam, a5, a6, a7, a8, vp, sc, b1, b2, b3, b4, b5, b6,
    e1, e2, e3, e4⟩, bc⟩ := s0
  simp [emit, GLCall.step, glARRAY_BUFFER, glELEMENT_ARRAY_BUFFER, glBLEND,
    glCULL_FACE, glDEPTH_TEST, glSCISSOR_TEST, glFRONT_AND_BACK]

set_option maxHeartbeats 2000000 in
/-- C6: with positive framebuffer dimensions, `Render` hands back every
captured pipeline-state field — active texture unit, program, texture and
sampler bindings, array/element buffer bindings, vertex-array binding,
polygon mode, viewport, scissor box, the six blend values and the four
enable flags — with the value it had on entry, and modifies no other
modelled pipeline state. -/
theorem render_restores_pipeline_state (ui : UIHandles) (args : RenderArgs)
    (s0 : GLState) (hw : 0 < args.fbWidth) (hh : 0 < args.fbHeight) :
    ((Render ui args s0).1).pipe = s0.pipe := by
  have hguard : ¬(args.fbWidth ≤ 0 ∨ args.fbHeight ≤ 0) := by
    push_neg
    exact ⟨hw, hh⟩
  unfold Render
  rw [if_neg hguard]
  simp only [emit_fst]
  rw [setup_pair ui args s0]
  rw [show (((GLCall.activeTexture glTEXTURE0).step s0).pipe.activeTexture - glTEXTURE0) = 0
    from by simp [GLCall.step]]
  refine restore_chain s0 _ _ ?_ ?_ ?_ ?_
  · rw [listFold_activeTexture]
  · rw [listFold_vertexArray]
  · rw [listFold_sampler]
  · intro u hu
    exact listFold_texture2D _ _ _ _ _ _ u hu

/-- C6 witness: a concrete 800×600 frame with one one-command draw list
leaves the sample pipeline state exactly as it was. -/
theorem render_restores_pipeline_state_witness :
    ((Render sampleUI sampleArgs sampleState).1).pipe = sampleState.pipe :=
  render_restores_pipeline_state sampleUI sampleArgs sampleState
    (by decide) (by decide)

/-! ## Claim C8 -/

/-- The indexed draw calls of a trace: element count and byte offset of
each `gl.DrawElementsWithOffset`, in issue order. -/
def drawCallsOf : List GLCall → List (ℕ × ℕ)
  | [] => []
  | GLCall.drawElements _ count _ offset :: rest => (count, offset) :: drawCallsOf rest
  | _ :: rest => drawCallsOf rest

lemma drawCallsOf_append (a b : List GLCall) :
    drawCallsOf (a ++ b) = drawCallsOf a ++ drawCallsOf b := by
  induction a with
  | nil => rfl
  | cons c rest ih => cases c <;> simp [drawCallsOf, ih]

/-- Recursive description of the draws the command loop produces from a
running byte offset. -/
def auxSpec (is : ℕ) : ℕ → List DrawCmd → List (ℕ × ℕ)
  | _, [] => []
  | off, c :: cs =>
      if c.hasUserCallback then auxSpec is (off + c.elementCount * is) cs
      else (c.elementCount, off) :: auxSpec is (off + c.elementCount * is) cs

/-- The command loop (`cmdStep` folded as in `Render`) emits exactly the
draws `auxSpec` describes, appended to whatever the trace already held. -/
lemma cmdFold_draws (fbH : ℤ) (dt is : ℕ) (cs : List DrawCmd) :
    ∀ (s : GLState) (tr : List GLCall) (off : ℕ),
    drawCallsOf ((cs.foldl (cmdStep fbH dt is) ((s, tr), off)).1.2) =
      drawCallsOf tr ++ auxSpec is off cs := by
  induction cs with
  | nil => intro s tr off; simp [drawCallsOf, auxSpec]
  | cons c cs ih =>
      intro s tr off
      rw [List.foldl_cons]
      by_cases hcb : c.hasUserCallback
      · simp only [cmdStep, hcb, if_true, emit]
        rw [ih, drawCallsOf_append]
        simp [drawCallsOf, auxSpec, hcb]
      · simp only [cmdStep, hcb, Bool.false_eq_true, if_false, emit]
        rw [ih]
        simp [drawCallsOf_append, drawCallsOf, auxSpec, hcb]

/-- `auxSpec` computes, for each non-callback command, the sum of
`elementCount · indexSize` over all preceding commands of the list. -/
lemma auxSpec_eq (is : ℕ) (cs : List DrawCmd) : ∀ (off : ℕ),
    auxSpec is off cs = cs.enum.filterMap (fun kc =>
      if kc.2.hasUserCallback then none
      else some (kc.2.elementCount,
        off + ((cs.take kc.1).map DrawCmd.elementCount).sum * is)) := by
  induction cs with
  | nil => intro off; simp [auxSpec]
  | cons c cs ih =>
      intro off
      rw [List.enum_cons', List.filterMap_cons, List.filterMap_map]
      have hfun : ((fun kc : ℕ × DrawCmd => if kc.2.hasUserCallback then none
          else some (kc.2.elementCount,
            off + (((c :: cs).take kc.1).map DrawCmd.elementCount).sum * is)) ∘
            Prod.map (· + 1) id) =
          (fun kc : ℕ × DrawCmd => if kc.2.hasUserCallback then none
          else some (kc.2.elementCount,
            (off + c.elementCount * is) +
              ((cs.take kc.1).map DrawCmd.elementCount).sum * is)) := by
        funext kc
        rcases kc with ⟨k, cmd⟩
        by_cases hcb : cmd.hasUserCallback <;> simp [hcb, Prod.map]
        ring
      rw [hfun, ← ih]
      by_cases hcb : c.hasUserCallback <;> simp [auxSpec, hcb]

/-- C8: the byte offset of the k-th non-callback draw that the command
loop issues equals the sum, over all commands preceding position k in
the list (callback commands included), of `elementCount · indexSize`;
with element counts 6, 12, 3 and 16-bit (2-byte) indices the three draws
use offsets 0, 12 and 36. -/
theorem index_offset_accumulation (fbH : ℤ) (dt is : ℕ) (cs : List DrawCmd)
    (s : GLState) (tr : List GLCall) :
    drawCallsOf ((cs.foldl (cmdStep fbH dt is) ((s, tr), 0)).1.2) =
      drawCallsOf tr ++ cs.enum.filterMap (fun kc =>
        if kc.2.hasUserCallback then none
        else some (kc.2.elementCount,
          ((cs.take kc.1).map DrawCmd.elementCount).sum * is)) ∧
    drawCallsOf (([plainCmd 6, plainCmd 12, plainCmd 3].foldl
        (cmdStep 600 glUNSIGNED_SHORT 2) ((sampleState, []), 0)).1.2) =
      [(6, 0), (12, 12), (3, 36)] := by
  constructor
  · rw [cmdFold_draws, auxSpec_eq]
    congr 1
    apply List.filterMap_congr
    intro a _
    simp
  · rfl

/-! ## Claim C7 -/

/-- C7: for a clip rectangle whose vertical edges sit at integer
coordinates `y0` (top) and `y1` (bottom) and a framebuffer of height
`fbHeight`, the scissor rectangle `Render` issues for the command has Y
origin `fbHeight - y1` and height `y1 - y0`. -/
theorem scissor_y_flip (fbHeight y0 y1 : ℤ) (r : ClipRect)
    (hy : r.y = (y0 : ℚ)) (hw : r.w = (y1 : ℚ)) :
    (scissorFor fbHeight r).2.1 = fbHeight - y1 ∧
    (scissorFor fbHeight r).2.2.2 = y1 - y0 := by
  have hcast : ((y1 : ℚ) - (y0 : ℚ)) = ((y1 - y0 : ℤ) : ℚ) := by push_cast; ring
  have hf : ∀ n : ℤ, f2i ((n : ℚ)) = n := by
    intro n
    unfold f2i
    split <;> simp
  constructor
  · simp only [scissorFor, hw, hf]
  · simp only [scissorFor, hy, hw, hcast, hf]

/-- C7 witness: for `y0 = 10`, `y1 = 50`, `H = 600` the issued scissor
has Y origin 550 and height 40. -/
theorem scissor_y_flip_witness :
    (scissorFor 600 ⟨0, 10, 100, 50⟩).2.1 = 550 ∧
    (scissorFor 600 ⟨0, 10, 100, 50⟩).2.2.2 = 40 :=
  ⟨((scissor_y_flip 600 10 50 ⟨0, 10, 100, 50⟩ (by simp) (by simp)).1).trans (by decide),
   ((scissor_y_flip 600 10 50 ⟨0, 10, 100, 50⟩ (by simp) (by simp)).2).trans (by decide)⟩

end Glapp
